import Mathlib

/-!
Shallow embedding of `pyedimax/smartplug.py`, a client for the EDIMAX
SP-1101W/SP-2101W smart plug: XML command construction (via
`xml.dom.minidom` document building and `toxml()` serialization), response
parsing (`parseString` plus the `getElementsByTagName`/`firstChild`/
`nodeValue` extraction chains of `_post_xml` and `_post_xml_now_power`),
the HTTP status check, the authentication probe in `__init__`, and the
four public accessors (`state` getter/setter, `now_power`,
`now_energy_day`).
-/

set_option autoImplicit false
set_option maxRecDepth 100000

namespace Edimax

/-! ### XML document model (mirrors the `xml.dom.minidom` node trees the
source builds and parses; `XForest` is the child list, kept as a mutual
inductive so that recursion over trees is structural). -/

mutual
inductive XNode where
  | elem (tag : String) (attrs : List (String × String)) (children : XForest)
  | text (s : String)
  deriving DecidableEq

inductive XForest where
  | nil
  | cons (hd : XNode) (tl : XForest)
  deriving DecidableEq
end

/-- `node.firstChild` of minidom: the first child of an element, `None`
for an empty element and for text nodes (text nodes have no children). -/
def firstChild : XNode → Option XNode
  | .elem _ _ (.cons h _) => some h
  | .elem _ _ .nil => none
  | .text _ => none

/-- `node.nodeValue` of minidom: the character data of a text node,
`None` for an element node. -/
def nodeValue : XNode → Option String
  | .text s => some s
  | .elem _ _ _ => none

mutual
/-- Matches of `getElementsByTagName(name)` in the subtree rooted at a
node, the node itself included, in document (preorder) order. -/
def subtreeByTag (name : String) : XNode → List XNode
  | .text _ => []
  | .elem t a cs =>
      (if t = name then [XNode.elem t a cs] else []) ++ forestByTag name cs

/-- Matches of `getElementsByTagName(name)` across a child forest. -/
def forestByTag (name : String) : XForest → List XNode
  | .nil => []
  | .cons h tl => subtreeByTag name h ++ forestByTag name tl
end

/-- `Document.getElementsByTagName(name)`: the search starts at the
document node, so the root element itself is a candidate. -/
def docByTag (root : XNode) (name : String) : List XNode :=
  subtreeByTag name root

/-- `Element.getElementsByTagName(name)`: descendants only, the element
itself excluded. -/
def elemByTag (e : XNode) (name : String) : List XNode :=
  match e with
  | .elem _ _ cs => forestByTag name cs
  | .text _ => []

/-! ### minidom serialization (`Node.toxml()` with the default arguments,
i.e. `writexml(writer, "", "", "")`). -/

/-- minidom's character-data escaping. The source chains
`replace("&", "&amp;")`, `replace("<", "&lt;")`, `replace("\"", "&quot;")`,
`replace(">", "&gt;")`; as no replacement output contains a character that
a later replacement rewrites, the chain equals this per-character map. -/
def escChar (c : Char) : String :=
  if c = '&' then "&amp;"
  else if c = '<' then "&lt;"
  else if c = '"' then "&quot;"
  else if c = '>' then "&gt;"
  else String.singleton c

/-- `_write_data`: escape character data (used for text nodes and for
attribute values alike). -/
def writeData (s : String) : String :=
  String.join (s.data.map escChar)

/-- One ` name="value"` attribute, as `Element.writexml` emits it. -/
def writeAttr (a : String × String) : String :=
  " " ++ a.1 ++ "=\"" ++ writeData a.2 ++ "\""

def writeAttrs (attrs : List (String × String)) : String :=
  String.join (attrs.map writeAttr)

mutual
/-- `Element.writexml` / text-node `writexml` with empty indent and
newline arguments, as `toxml()` uses them: an element with no children is
self-closed, otherwise its children are emitted back to back. -/
def writexmlNode : XNode → String
  | .text s => writeData s
  | .elem t a cs =>
      "<" ++ t ++ writeAttrs a ++
        (match cs with
         | .nil => "/>"
         | .cons h tl => ">" ++ writexmlForest (.cons h tl) ++ "</" ++ t ++ ">")

def writexmlForest : XForest → String
  | .nil => ""
  | .cons h tl => writexmlNode h ++ writexmlForest tl
end

/-- `Document.toxml()`: the XML declaration followed by the root
element's serialization. -/
def toxmlDoc (root : XNode) : String :=
  "<?xml version=\"1.0\" ?>" ++ writexmlNode root

/-! ### Command builders (`_xml_cmd_setget_state`, `_xml_cmd_get_now_power`).
Each builds the same node tree the source builds with `createDocument` /
`createElement` / `appendChild` / `createTextNode`, then serializes with
`toxml()`. Note the builders always append a text node (possibly empty),
so the leaf element always has a child. -/

/-- `_xml_cmd_setget_state(cmdId, cmdStr)`. -/
def xml_cmd_setget_state (cmdId cmdStr : String) : String :=
  toxmlDoc
    (.elem "SMARTPLUG" [("id", "edimax")]
      (.cons
        (.elem "CMD" [("id", cmdId)]
          (.cons
            (.elem "Device.System.Power.State" []
              (.cons (.text cmdStr) .nil))
            .nil))
        .nil))

/-- `_xml_cmd_get_now_power(attribute)`. -/
def xml_cmd_get_now_power (attrName : String) : String :=
  toxmlDoc
    (.elem "SMARTPLUG" [("id", "edimax")]
      (.cons
        (.elem "CMD" [("id", "get")]
          (.cons
            (.elem "NOW_POWER" []
              (.cons
                (.elem ("Device.System.Power." ++ attrName) []
                  (.cons (.text "") .nil))
                .nil))
            .nil))
        .nil))

example :
    xml_cmd_setget_state "setup" "ON" =
      "<?xml version=\"1.0\" ?><SMARTPLUG id=\"edimax\"><CMD id=\"setup\"><Device.System.Power.State>ON</Device.System.Power.State></CMD></SMARTPLUG>" := by
  rfl

/-! ### XML parsing (model of `xml.dom.minidom.parseString`, i.e. expat,
restricted to the element/attribute/text subset the protocol uses; no
entity references, comments, CDATA or processing instructions other than
an optional leading XML declaration). -/

def isNameChar (c : Char) : Bool :=
  c.isAlphanum || c = '.' || c = '_' || c = '-' || c = ':'

def takeName (cs : List Char) : String × List Char :=
  (String.mk (cs.takeWhile isNameChar), cs.dropWhile isNameChar)

def skipSpaces (cs : List Char) : List Char :=
  cs.dropWhile (·.isWhitespace)

/-- Parse a run of ` name="value"` attributes, stopping at `>` or `/`. -/
def parseAttrs : Nat → List Char → Option (List (String × String) × List Char)
  | 0, _ => none
  | fuel + 1, cs =>
    match skipSpaces cs with
    | '>' :: r => some ([], '>' :: r)
    | '/' :: r => some ([], '/' :: r)
    | cs' =>
      match takeName cs' with
      | (n, r1) =>
        if n.isEmpty then none
        else
          match r1 with
          | '=' :: '"' :: r2 =>
            match r2.span (fun c => c ≠ '"') with
            | (v, r3) =>
              match r3 with
              | '"' :: r4 =>
                match parseAttrs fuel r4 with
                | some (as, r5) => some ((n, String.mk v) :: as, r5)
                | none => none
              | _ => none
          | _ => none

/-- Parse a sibling sequence of nodes, stopping at a closing tag or the
end of input. Fueled so the recursion is structural. -/
def parseNodes : Nat → List Char → Option (XForest × List Char)
  | 0, _ => none
  | fuel + 1, cs =>
    match cs with
    | [] => some (.nil, [])
    | '<' :: '/' :: rest => some (.nil, '<' :: '/' :: rest)
    | '<' :: rest =>
      match takeName rest with
      | (n, r1) =>
        if n.isEmpty then none
        else
          match parseAttrs (r1.length + 1) r1 with
          | none => none
          | some (as, r2) =>
            match r2 with
            | '/' :: '>' :: r3 =>
              match parseNodes fuel r3 with
              | some (sib, r4) => some (.cons (.elem n as .nil) sib, r4)
              | none => none
            | '>' :: r3 =>
              match parseNodes fuel r3 with
              | none => none
              | some (kids, r4) =>
                match r4 with
                | '<' :: '/' :: r5 =>
                  match takeName r5 with
                  | (n2, r6) =>
                    if n2 = n then
                      match skipSpaces r6 with
                      | '>' :: r7 =>
                        match parseNodes fuel r7 with
                        | some (sib, r8) => some (.cons (.elem n as kids) sib, r8)
                        | none => none
                      | _ => none
                    else none
                | _ => none
            | _ => none
    | c :: rest =>
      match (c :: rest).span (fun d => d ≠ '<') with
      | (txt, r1) =>
        match parseNodes fuel r1 with
        | some (sib, r2) => some (.cons (.text (String.mk txt)) sib, r2)
        | none => none

/-- Drop a leading `<?xml ... ?>` declaration. -/
def dropDecl : List Char → List Char
  | [] => []
  | '?' :: '>' :: r => r
  | _ :: r => dropDecl r

/-- `parseString`: a whole document is an optional XML declaration and
exactly one root element; anything else is a parse error (`None` here,
an `ExpatError` in the source). -/
def parseDoc (s : String) : Option XNode :=
  let cs := skipSpaces s.data
  let cs := match cs with
            | '<' :: '?' :: r => skipSpaces (dropDecl r)
            | _ => cs
  match parseNodes (s.length + 2) cs with
  | some (.cons root .nil, rest) =>
      if (skipSpaces rest).isEmpty then some root else none
  | _ => none

example : parseDoc "<CMD>OK</CMD>" =
    some (.elem "CMD" [] (.cons (.text "OK") .nil)) := by rfl

/-! ### Python-level error and value model. -/

/-- The exceptions the embedded code paths can raise:
`Exception(msg)` raised by the accessors, `TypeError` from `float(None)`,
`KeyError` from an absent dictionary key, `ExpatError` from
`parseString` on malformed XML. -/
inductive PyErr where
  | exception (msg : String)
  | typeError
  | keyError (k : String)
  | expatError
  deriving DecidableEq

/-- A Python value as returned by an accessor: a `str`, or a `float`
(rationals stand in for the float values; the claims only need the two
kinds to be distinguishable). -/
inductive PyVal where
  | str (s : String)
  | pfloat (q : ℚ)
  deriving DecidableEq

/-! ### Response extraction (`_post_xml`, `_post_xml_now_power`). -/

/-- The try-block of `_post_xml`:
`val = dom.getElementsByTagName("CMD")[0].firstChild.nodeValue`, and if
that is `None`, descend
`...getElementsByTagName("Device.System.Power.State")[0].firstChild.nodeValue`.
Every `IndexError`/`AttributeError` on the way is caught, printed and
turned into a `None` result. -/
def extractState (root : XNode) : Option String :=
  match docByTag root "CMD" with
  | [] => none
  | cmd :: _ =>
    match firstChild cmd with
    | none => none
    | some fc =>
      match nodeValue fc with
      | some v => some v
      | none =>
        match elemByTag cmd "Device.System.Power.State" with
        | [] => none
        | st :: _ =>
          match firstChild st with
          | none => none
          | some fc2 => nodeValue fc2

/-- The try-block of `_post_xml_now_power`: like `extractState`, but the
`None` fallback descends
`...getElementsByTagName("NOW_POWER")[0].firstChild.firstChild.nodeValue`. -/
def extractNowPower (root : XNode) : Option String :=
  match docByTag root "CMD" with
  | [] => none
  | cmd :: _ =>
    match firstChild cmd with
    | none => none
    | some fc =>
      match nodeValue fc with
      | some v => some v
      | none =>
        match elemByTag cmd "NOW_POWER" with
        | [] => none
        | np :: _ =>
          match firstChild np with
          | none => none
          | some c1 =>
            match firstChild c1 with
            | none => none
            | some c2 => nodeValue c2

/-- An HTTP response as the client sees it: status code and body text. -/
structure HResp where
  status : Nat
  text : String

/-- `_post_xml` after the POST has returned `resp`. The status check is
`res.status_code == requests.codes.ok`, i.e. exactly 200. On 200 the body
is parsed by `parseString` — which sits outside the try block, so
malformed XML raises an uncaught `ExpatError` — and the try-block
extraction yields the value, or `None` when an exception was swallowed.
On any other status the body is never parsed and `None` is returned. -/
def post_xml_response (resp : HResp) : Except PyErr (Option String) :=
  if resp.status = 200 then
    match parseDoc resp.text with
    | none => .error .expatError
    | some root => .ok (extractState root)
  else .ok none

/-- `_post_xml_now_power` after the POST has returned `resp`; identical
shell around `extractNowPower`. -/
def post_xml_now_power_response (resp : HResp) : Except PyErr (Option String) :=
  if resp.status = 200 then
    match parseDoc resp.text with
    | none => .error .expatError
    | some root => .ok (extractNowPower root)
  else .ok none

/-! ### Authentication probe (`__init__`). -/

/-- The authentication value held in `self.auth`: the `(user, password)`
tuple (which `requests` uses as HTTP Basic), or an
`HTTPDigestAuth(user, password)` object. -/
inductive AuthMode where
  | basic (user pw : String)
  | digest (user pw : String)
  deriving DecidableEq

def lowerStr (s : String) : String :=
  String.mk (s.data.map Char.toLower)

/-- Lookup in `res.headers`, a `CaseInsensitiveDict`: keys compare
case-insensitively; an absent key raises `KeyError`. -/
def headerLookup (hs : List (String × String)) (k : String) : Option String :=
  (hs.find? (fun p => lowerStr p.1 == lowerStr k)).map Prod.snd

/-- The client instance state that survives construction: the fixed
endpoint URL and the resolved authentication value. -/
structure SmartPlug where
  url : String
  auth : AuthMode
  deriving DecidableEq

/-- `__init__(host, auth)` given the headers of the probe `HEAD`
response: builds the URL, stores the tuple as `self.auth`, and replaces
it by `HTTPDigestAuth` iff `res.headers['WWW-Authenticate'][0:6] ==
'Digest'`. The header is indexed without a guard, so an absent
`WWW-Authenticate` raises `KeyError`. -/
def SmartPlug.init (host user pw : String) (probeHeaders : List (String × String)) :
    Except PyErr SmartPlug :=
  let url := "http://" ++ host ++ ":10000/smartplug.cgi"
  match headerLookup probeHeaders "WWW-Authenticate" with
  | none => .error (.keyError "WWW-Authenticate")
  | some v =>
      .ok { url := url,
            auth := if v.take 6 = "Digest" then .digest user pw else .basic user pw }

/-! ### Accessors. A `Transport` is a mock of `requests.post` on the
fixed endpoint: it maps the authentication value and the posted XML body
to an HTTP response. -/

def Transport := AuthMode → String → HResp

/-- `state` getter: posts the get command, then
`if res != "ON" and res != "OFF": raise Exception(...)`, else returns
`res`. -/
def state_get (t : Transport) (p : SmartPlug) : Except PyErr String :=
  match post_xml_response (t p.auth (xml_cmd_setget_state "get" "")) with
  | .error e => .error e
  | .ok res =>
      if res = some "ON" ∨ res = some "OFF" then .ok (res.getD "")
      else .error (.exception "Failed to communicate with SmartPlug")

/-- A Python value passed to the `state` setter: a string, or any
non-string value, whose `==` comparison with any string is `False`. -/
inductive SetArg where
  | str (s : String)
  | nonStr
  deriving DecidableEq

/-- Python `value == s` for a setter argument against a string literal. -/
def setArgEq (v : SetArg) (s : String) : Bool :=
  match v with
  | .str t => t == s
  | .nonStr => false

/-- The body the `state` setter posts:
`if value == "ON" or value == "on"` selects the ON setup command, any
other value the OFF one. -/
def setState_body (v : SetArg) : String :=
  if setArgEq v "ON" || setArgEq v "on" then xml_cmd_setget_state "setup" "ON"
  else xml_cmd_setget_state "setup" "OFF"

/-- `state` setter: posts the selected setup command and then
`if res != "OK": raise Exception(...)`. -/
def state_set (t : Transport) (p : SmartPlug) (v : SetArg) : Except PyErr Unit :=
  match post_xml_response (t p.auth (setState_body v)) with
  | .error e => .error e
  | .ok res =>
      if res = some "OK" then .ok ()
      else .error (.exception "Failed to communicate with SmartPlug")

/-! ### CPython `float(str)` acceptance. -/

/-- `+` or `-` followed by at least one digit, or bare digits;
the tail of an exponent. -/
def signedDigits : List Char → Bool
  | [] => false
  | '+' :: r => !r.isEmpty && r.all Char.isDigit
  | '-' :: r => !r.isEmpty && r.all Char.isDigit
  | cs => cs.all Char.isDigit

/-- After the mantissa: either nothing, or `e`/`E` and a signed digit
run. -/
def expOk : List Char → Bool
  | [] => true
  | 'e' :: r => signedDigits r
  | 'E' :: r => signedDigits r
  | _ => false

/-- Digits with an optional decimal point (at least one digit on either
side), then an optional exponent. -/
def mantissaOk (cs : List Char) : Bool :=
  let intPart := cs.takeWhile Char.isDigit
  let r1 := cs.dropWhile Char.isDigit
  match r1 with
  | '.' :: r2 =>
      let frac := r2.takeWhile Char.isDigit
      let r3 := r2.dropWhile Char.isDigit
      (!intPart.isEmpty || !frac.isEmpty) && expOk r3
  | _ => !intPart.isEmpty && expOk r1

/-- Model of CPython `float()` applied to a `str`: surrounding
whitespace is stripped; an optional sign is followed by `inf`,
`infinity` or `nan` (case-insensitively) or by a decimal mantissa with
optional exponent. Returns whether the conversion succeeds (`False`
means `ValueError`). Digit-group underscores are not modelled; the
protocol never produces them. -/
def pyFloatAccepts (s : String) : Bool :=
  let cs := ((s.data.dropWhile (·.isWhitespace)).reverse.dropWhile (·.isWhitespace)).reverse
  let body := match cs with
              | '+' :: r => r
              | '-' :: r => r
              | _ => cs
  let low := String.mk (body.map Char.toLower)
  low == "inf" || low == "infinity" || low == "nan" || mantissaOk body

/-- `now_power`: posts the NowPower query; `float(res)` is evaluated
only for its exception — on a `None` result it raises `TypeError`
(which the `except ValueError` handler does not catch), on a non-numeric
string `ValueError` (caught and replaced by the generic `Exception`);
when the conversion succeeds the accessor returns `res` itself — the
string, not the converted float. -/
def now_power (t : Transport) (p : SmartPlug) : Except PyErr PyVal :=
  match post_xml_now_power_response (t p.auth (xml_cmd_get_now_power "NowPower")) with
  | .error e => .error e
  | .ok none => .error .typeError
  | .ok (some s) =>
      if pyFloatAccepts s then .ok (.str s)
      else .error (.exception "Failed to communicate with SmartPlug")

/-- `now_energy_day`: identical to `now_power` with the
`NowEnergy.Day` attribute in the query. -/
def now_energy_day (t : Transport) (p : SmartPlug) : Except PyErr PyVal :=
  match post_xml_now_power_response (t p.auth (xml_cmd_get_now_power "NowEnergy.Day")) with
  | .error e => .error e
  | .ok none => .error .typeError
  | .ok (some s) =>
      if pyFloatAccepts s then .ok (.str s)
      else .error (.exception "Failed to communicate with SmartPlug")

/-! ### Sequences of accessor calls on one client instance. -/

/-- One public accessor invocation. -/
inductive Op where
  | getState
  | setSt (v : SetArg)
  | getNowPower
  | getNowEnergyDay

/-- The value an invocation produces. -/
inductive OpResult where
  | stateR (r : Except PyErr String)
  | setR (r : Except PyErr Unit)
  | powerR (r : Except PyErr PyVal)

/-- One accessor call as a step on the instance state. None of the four
methods assigns `self.auth` or `self.url`, so the instance comes back
unchanged next to the produced result. -/
def step (t : Transport) (p : SmartPlug) : Op → SmartPlug × OpResult
  | .getState => (p, .stateR (state_get t p))
  | .setSt v => (p, .setR (state_set t p v))
  | .getNowPower => (p, .powerR (now_power t p))
  | .getNowEnergyDay => (p, .powerR (now_energy_day t p))

/-- The instance state after a sequence of accessor calls. -/
def runOps (t : Transport) (p : SmartPlug) : List Op → SmartPlug
  | [] => p
  | op :: rest => runOps t (step t p op).1 rest

/-! ### Helper lemmas. -/

/-- The setter's body selection, rephrased on the argument: the ON setup
command is chosen exactly for the strings `"ON"` and `"on"`. -/
lemma setState_body_eq (v : SetArg) :
    setState_body v =
      if v = SetArg.str "ON" ∨ v = SetArg.str "on"
      then xml_cmd_setget_state "setup" "ON"
      else xml_cmd_setget_state "setup" "OFF" := by
  cases v with
  | nonStr => simp [setState_body, setArgEq]
  | str s =>
    by_cases h1 : s = "ON"
    · subst h1; simp [setState_body, setArgEq]
    · by_cases h2 : s = "on"
      · subst h2; simp [setState_body, setArgEq]
      · simp [setState_body, setArgEq, h1, h2]

lemma setup_on_ne_off :
    xml_cmd_setget_state "setup" "ON" ≠ xml_cmd_setget_state "setup" "OFF" := by
  decide

/-- No accessor call changes the instance. -/
lemma step_fst (t : Transport) (p : SmartPlug) (op : Op) : (step t p op).1 = p := by
  cases op <;> rfl

lemma runOps_fixed (t : Transport) (p : SmartPlug) (ops : List Op) :
    runOps t p ops = p := by
  induction ops with
  | nil => rfl
  | cons op rest ih => rw [runOps, step_fst]; exact ih

/-! ### Claim theorems. -/

/-- Claim C1, counterexample: the setter does not normalize
case-insensitively. The desired state `"On"` — a letter casing of ON —
selects the OFF setup command, whose bytes differ from the ON one. -/
theorem C1_counterexample :
    setState_body (SetArg.str "On") = xml_cmd_setget_state "setup" "OFF" ∧
    ((xml_cmd_setget_state "setup" "OFF" == xml_cmd_setget_state "setup" "ON") = false) :=
  ⟨rfl, rfl⟩

/-- Claim C1, amended: the setter sends the ON setup command exactly for
the inputs `"ON"` and `"on"` (so `setState("on")` and `setState("ON")`
produce byte-identical bodies), and every other input — mixed casings of
ON included — sends the OFF setup command; all casings of OFF therefore
canonicalize to uppercase OFF. -/
theorem C1_setState_canonicalization :
    (∀ v : SetArg, setState_body v = xml_cmd_setget_state "setup" "ON" ↔
        (v = SetArg.str "ON" ∨ v = SetArg.str "on")) ∧
    setState_body (SetArg.str "on") = setState_body (SetArg.str "ON") ∧
    (∀ v : SetArg, v ≠ SetArg.str "ON" → v ≠ SetArg.str "on" →
        setState_body v = xml_cmd_setget_state "setup" "OFF") := by
  refine ⟨fun v => ?_, rfl, fun v h1 h2 => ?_⟩
  · rw [setState_body_eq]
    by_cases h : v = SetArg.str "ON" ∨ v = SetArg.str "on"
    · simp [h]
    · rw [if_neg h]
      exact iff_of_false (fun hc => setup_on_ne_off hc.symm) h
  · rw [setState_body_eq, if_neg]
    rintro (hc | hc) <;> [exact h1 hc; exact h2 hc]

/-- Claim C1 witness: the amended theorem applied to the concrete
mixed-case input `"Off"`. -/
theorem C1_setState_canonicalization_witness :
    setState_body (SetArg.str "Off") = xml_cmd_setget_state "setup" "OFF" :=
  C1_setState_canonicalization.2.2 (SetArg.str "Off") (by decide) (by decide)

/-- Claim C9: any setter argument other than exactly the strings `"ON"`
and `"on"` — mixed case, arbitrary strings, non-strings — silently
selects the OFF setup command, and the call proceeds exactly as an
explicit `"OFF"` request would: no input is rejected before the POST. -/
theorem C9_setState_silent_off :
    ∀ v : SetArg, v ≠ SetArg.str "ON" → v ≠ SetArg.str "on" →
      setState_body v = xml_cmd_setget_state "setup" "OFF" ∧
      ∀ (t : Transport) (p : SmartPlug),
        state_set t p v = state_set t p (SetArg.str "OFF") := by
  intro v h1 h2
  have hb : setState_body v = xml_cmd_setget_state "setup" "OFF" := by
    rw [setState_body_eq, if_neg]
    rintro (hc | hc) <;> [exact h1 hc; exact h2 hc]
  refine ⟨hb, fun t p => ?_⟩
  have hb2 : setState_body (SetArg.str "OFF") = xml_cmd_setget_state "setup" "OFF" := rfl
  rw [state_set, state_set, hb, hb2]

/-- Claim C9 witness: a non-string argument, against a transport that
acknowledges with `<CMD>OK</CMD>`, behaves exactly like `"OFF"`. -/
theorem C9_setState_silent_off_witness :
    setState_body SetArg.nonStr = xml_cmd_setget_state "setup" "OFF" ∧
    state_set (fun _ _ => ⟨200, "<CMD>OK</CMD>"⟩)
        ⟨"http://h:10000/smartplug.cgi", AuthMode.basic "admin" "1234"⟩ SetArg.nonStr =
      state_set (fun _ _ => ⟨200, "<CMD>OK</CMD>"⟩)
        ⟨"http://h:10000/smartplug.cgi", AuthMode.basic "admin" "1234"⟩ (SetArg.str "OFF") := by
  obtain ⟨h1, h2⟩ := C9_setState_silent_off SetArg.nonStr (by decide) (by decide)
  exact ⟨h1, h2 _ _⟩

/-- Claim C4, counterexample: `toxml()` prepends the XML declaration and
serializes the empty state element with an explicit end tag, so the
get-state command is not byte-for-byte the spec's string. -/
theorem C4_counterexample :
    xml_cmd_setget_state "get" "" =
      "<?xml version=\"1.0\" ?><SMARTPLUG id=\"edimax\"><CMD id=\"get\"><Device.System.Power.State></Device.System.Power.State></CMD></SMARTPLUG>" ∧
    ((xml_cmd_setget_state "get" "" ==
      "<SMARTPLUG id=\"edimax\"><CMD id=\"get\"><Device.System.Power.State/></CMD></SMARTPLUG>") = false) :=
  ⟨rfl, rfl⟩

/-- Claim C4, amended: the builders are pure functions of the command
variant, and each variant's output is exactly the spec's element
structure prefixed by the `<?xml version="1.0" ?>` declaration, with the
empty leaf elements written as `<tag></tag>` instead of `<tag/>`. -/
theorem C4_builder_exact_bytes :
    xml_cmd_setget_state "get" "" =
      "<?xml version=\"1.0\" ?><SMARTPLUG id=\"edimax\"><CMD id=\"get\"><Device.System.Power.State></Device.System.Power.State></CMD></SMARTPLUG>" ∧
    xml_cmd_setget_state "setup" "ON" =
      "<?xml version=\"1.0\" ?><SMARTPLUG id=\"edimax\"><CMD id=\"setup\"><Device.System.Power.State>ON</Device.System.Power.State></CMD></SMARTPLUG>" ∧
    xml_cmd_setget_state "setup" "OFF" =
      "<?xml version=\"1.0\" ?><SMARTPLUG id=\"edimax\"><CMD id=\"setup\"><Device.System.Power.State>OFF</Device.System.Power.State></CMD></SMARTPLUG>" ∧
    xml_cmd_get_now_power "NowPower" =
      "<?xml version=\"1.0\" ?><SMARTPLUG id=\"edimax\"><CMD id=\"get\"><NOW_POWER><Device.System.Power.NowPower></Device.System.Power.NowPower></NOW_POWER></CMD></SMARTPLUG>" ∧
    xml_cmd_get_now_power "NowEnergy.Day" =
      "<?xml version=\"1.0\" ?><SMARTPLUG id=\"edimax\"><CMD id=\"get\"><NOW_POWER><Device.System.Power.NowEnergy.Day></Device.System.Power.NowEnergy.Day></NOW_POWER></CMD></SMARTPLUG>" :=
  ⟨rfl, rfl, rfl, rfl, rfl⟩

/-- Claim C3: the state getter returns a value iff the parsed response
value is exactly `ON` or exactly `OFF`; for every other parsed value —
absence (`None`) included — it raises the communication `Exception`
instead of returning. -/
theorem C3_state_get_characterization :
    ∀ (t : Transport) (p : SmartPlug),
      ((∃ s, state_get t p = Except.ok s) ↔
        (post_xml_response (t p.auth (xml_cmd_setget_state "get" "")) = Except.ok (some "ON") ∨
         post_xml_response (t p.auth (xml_cmd_setget_state "get" "")) = Except.ok (some "OFF"))) ∧
      (∀ r : Option String,
        post_xml_response (t p.auth (xml_cmd_setget_state "get" "")) = Except.ok r →
        r ≠ some "ON" → r ≠ some "OFF" →
        state_get t p = Except.error (PyErr.exception "Failed to communicate with SmartPlug")) := by
  intro t p
  rcases hq : post_xml_response (t p.auth (xml_cmd_setget_state "get" "")) with e | res
  · constructor
    · simp [state_get, hq]
    · intro r hr
      exact absurd hr (by simp)
  · constructor
    · by_cases h : res = some "ON" ∨ res = some "OFF"
      · simp only [state_get, hq, if_pos h]
        exact iff_of_true ⟨res.getD "", rfl⟩ (by rcases h with h | h <;> simp [h])
      · simp only [state_get, hq, if_neg h]
        constructor
        · rintro ⟨s, hs⟩; cases hs
        · rintro (hc | hc) <;>
            (injection hc with hc; exact absurd (by simp [hc]) h)
    · intro r hr h1 h2
      injection hr with hr
      subst hr
      have h : ¬(res = some "ON" ∨ res = some "OFF") := by
        rintro (hc | hc) <;> [exact h1 hc; exact h2 hc]
      simp only [state_get, hq, if_neg h]

/-- Claim C3 witness: a transport answering `<CMD>NG</CMD>` parses to the
value `NG`, and the getter raises the communication `Exception`. -/
theorem C3_state_get_characterization_witness :
    state_get (fun _ _ => ⟨200, "<CMD>NG</CMD>"⟩)
        ⟨"http://h:10000/smartplug.cgi", AuthMode.basic "admin" "1234"⟩ =
      Except.error (PyErr.exception "Failed to communicate with SmartPlug") :=
  (C3_state_get_characterization (fun _ _ => ⟨200, "<CMD>NG</CMD>"⟩)
      ⟨"http://h:10000/smartplug.cgi", AuthMode.basic "admin" "1234"⟩).2
    (some "NG") rfl (by decide) (by decide)

/-- Claim C5, counterexample: an HTTP 500 makes the state getter fail
with the generic communication `Exception`, which carries no status
code — indeed the outcome is indistinguishable from an HTTP 404 — so no
`TransportError(500)` is raised. -/
theorem C5_counterexample :
    state_get (fun _ _ => ⟨500, "<CMD>OK</CMD>"⟩)
        ⟨"http://h:10000/smartplug.cgi", AuthMode.basic "admin" "1234"⟩ =
      Except.error (PyErr.exception "Failed to communicate with SmartPlug") ∧
    state_get (fun _ _ => ⟨500, "<CMD>OK</CMD>"⟩)
        ⟨"http://h:10000/smartplug.cgi", AuthMode.basic "admin" "1234"⟩ =
      state_get (fun _ _ => ⟨404, "<CMD>OK</CMD>"⟩)
        ⟨"http://h:10000/smartplug.cgi", AuthMode.basic "admin" "1234"⟩ :=
  ⟨rfl, rfl⟩

/-- Claim C5, amended: on any non-200 status (the check is against
`requests.codes.ok`, exactly 200) the POST helpers return `None` without
parsing the body — even an unparseable body raises nothing — and the
accessors then fail: the state getter with the generic communication
`Exception` (no status code attached), the power accessor with
`TypeError` from `float(None)`. -/
theorem C5_non200_unparsed :
    ∀ (status : Nat) (body : String) (p : SmartPlug), status ≠ 200 →
      post_xml_response ⟨status, body⟩ = Except.ok none ∧
      post_xml_now_power_response ⟨status, body⟩ = Except.ok none ∧
      state_get (fun _ _ => ⟨status, body⟩) p =
        Except.error (PyErr.exception "Failed to communicate with SmartPlug") ∧
      now_power (fun _ _ => ⟨status, body⟩) p = Except.error PyErr.typeError := by
  intro status body p h
  have h1 : post_xml_response ⟨status, body⟩ = Except.ok none := by
    simp [post_xml_response, h]
  have h2 : post_xml_now_power_response ⟨status, body⟩ = Except.ok none := by
    simp [post_xml_now_power_response, h]
  refine ⟨h1, h2, ?_, ?_⟩
  · simp [state_get, h1]
  · simp [now_power, h2]

/-- Claim C5 witness: the amended theorem at status 500 with a body that
is not even well-formed XML. -/
theorem C5_non200_unparsed_witness :
    post_xml_response ⟨500, "<not-xml"⟩ = Except.ok none ∧
    post_xml_now_power_response ⟨500, "<not-xml"⟩ = Except.ok none ∧
    state_get (fun _ _ => ⟨500, "<not-xml"⟩)
        ⟨"http://h:10000/smartplug.cgi", AuthMode.basic "admin" "1234"⟩ =
      Except.error (PyErr.exception "Failed to communicate with SmartPlug") ∧
    now_power (fun _ _ => ⟨500, "<not-xml"⟩)
        ⟨"http://h:10000/smartplug.cgi", AuthMode.basic "admin" "1234"⟩ =
      Except.error PyErr.typeError :=
  C5_non200_unparsed 500 "<not-xml"
    ⟨"http://h:10000/smartplug.cgi", AuthMode.basic "admin" "1234"⟩ (by decide)

/-- Claim C6: response parsing round-trips the documented shapes — the
nested state response yields `OFF` (the `CMD` element has no direct
text, so the extraction descends into the state element), `<CMD>OK</CMD>`
yields `OK`; and in general, whenever the first child of the `CMD`
element is a text node, that direct text is the result. -/
theorem C6_parse_roundtrip :
    post_xml_response
        ⟨200, "<CMD><Device.System.Power.State>OFF</Device.System.Power.State></CMD>"⟩ =
      Except.ok (some "OFF") ∧
    post_xml_response ⟨200, "<CMD>OK</CMD>"⟩ = Except.ok (some "OK") ∧
    ∀ (attrs : List (String × String)) (s : String) (rest : XForest),
      extractState (XNode.elem "CMD" attrs (XForest.cons (XNode.text s) rest)) = some s := by
  refine ⟨rfl, rfl, fun attrs s rest => ?_⟩
  simp [extractState, docByTag, subtreeByTag, firstChild, nodeValue]

/-- Claim C2: on a metering response carrying `12.3`, `now_power`
returns the raw string `"12.3"`, not a float, although its docstring
declares `:rtype: float` (the code computes `float(res)` only to probe
for an exception and then returns `res`); on non-numeric text it does
fail with the communication `Exception` rather than returning 0, and
`now_energy_day` behaves identically. -/
theorem C2_now_power_string_not_float :
    now_power
        (fun _ _ => ⟨200, "<SMARTPLUG id=\"edimax\"><CMD id=\"get\"><NOW_POWER><Device.System.Power.NowPower>12.3</Device.System.Power.NowPower></NOW_POWER></CMD></SMARTPLUG>"⟩)
        ⟨"http://h:10000/smartplug.cgi", AuthMode.basic "admin" "1234"⟩ =
      Except.ok (PyVal.str "12.3") ∧
    now_energy_day
        (fun _ _ => ⟨200, "<SMARTPLUG id=\"edimax\"><CMD id=\"get\"><NOW_POWER><Device.System.Power.NowPower>12.3</Device.System.Power.NowPower></NOW_POWER></CMD></SMARTPLUG>"⟩)
        ⟨"http://h:10000/smartplug.cgi", AuthMode.basic "admin" "1234"⟩ =
      Except.ok (PyVal.str "12.3") ∧
    now_power
        (fun _ _ => ⟨200, "<SMARTPLUG id=\"edimax\"><CMD id=\"get\"><NOW_POWER><Device.System.Power.NowPower>abc</Device.System.Power.NowPower></NOW_POWER></CMD></SMARTPLUG>"⟩)
        ⟨"http://h:10000/smartplug.cgi", AuthMode.basic "admin" "1234"⟩ =
      Except.error (PyErr.exception "Failed to communicate with SmartPlug") :=
  ⟨rfl, rfl, rfl⟩

/-- Claim C10: whenever the power-query helper yields `None` — which
happens on a non-OK HTTP status and on a swallowed parse failure —
`now_power` and `now_energy_day` fail with `TypeError` from
`float(None)`, an error type distinct from the `Exception` the
`ValueError` handler produces for non-numeric text. -/
theorem C10_none_gives_typeerror :
    ∀ (t : Transport) (p : SmartPlug),
      (post_xml_now_power_response (t p.auth (xml_cmd_get_now_power "NowPower")) =
          Except.ok none →
        now_power t p = Except.error PyErr.typeError) ∧
      (post_xml_now_power_response (t p.auth (xml_cmd_get_now_power "NowEnergy.Day")) =
          Except.ok none →
        now_energy_day t p = Except.error PyErr.typeError) ∧
      ((PyErr.typeError == PyErr.exception "Failed to communicate with SmartPlug") = false) := by
  intro t p
  refine ⟨fun h => ?_, fun h => ?_, rfl⟩
  · simp [now_power, h]
  · simp [now_energy_day, h]

/-- Claim C10 witness: an HTTP 200 response whose metering element is
empty — the extraction swallows the `AttributeError` and yields `None` —
makes both power accessors fail with `TypeError`. -/
theorem C10_none_gives_typeerror_witness :
    now_power
        (fun _ _ => ⟨200, "<CMD><NOW_POWER><Device.System.Power.NowPower></Device.System.Power.NowPower></NOW_POWER></CMD>"⟩)
        ⟨"http://h:10000/smartplug.cgi", AuthMode.basic "admin" "1234"⟩ =
      Except.error PyErr.typeError ∧
    now_energy_day
        (fun _ _ => ⟨200, "<CMD><NOW_POWER><Device.System.Power.NowPower></Device.System.Power.NowPower></NOW_POWER></CMD>"⟩)
        ⟨"http://h:10000/smartplug.cgi", AuthMode.basic "admin" "1234"⟩ =
      Except.error PyErr.typeError :=
  ⟨(C10_none_gives_typeerror
      (fun _ _ => ⟨200, "<CMD><NOW_POWER><Device.System.Power.NowPower></Device.System.Power.NowPower></NOW_POWER></CMD>"⟩)
      ⟨"http://h:10000/smartplug.cgi", AuthMode.basic "admin" "1234"⟩).1 rfl,
   (C10_none_gives_typeerror
      (fun _ _ => ⟨200, "<CMD><NOW_POWER><Device.System.Power.NowPower></Device.System.Power.NowPower></NOW_POWER></CMD>"⟩)
      ⟨"http://h:10000/smartplug.cgi", AuthMode.basic "admin" "1234"⟩).2.1 rfl⟩

/-- Claim C7: construction resolves the scheme exactly once from the
probe's `WWW-Authenticate` header — Digest iff the header value's first
six characters are the token `Digest`, Basic otherwise — and no sequence
of subsequent accessor calls on the instance ever changes it. -/
theorem C7_auth_resolved_once :
    ∀ (host user pw : String) (hs : List (String × String)) (v : String),
      headerLookup hs "WWW-Authenticate" = some v →
      ∃ p, SmartPlug.init host user pw hs = Except.ok p ∧
        (p.auth = AuthMode.digest user pw ↔ v.take 6 = "Digest") ∧
        (p.auth = AuthMode.digest user pw ∨ p.auth = AuthMode.basic user pw) ∧
        ∀ (t : Transport) (ops : List Op), (runOps t p ops).auth = p.auth := by
  intro host user pw hs v hv
  refine ⟨_, by rw [SmartPlug.init, hv], ?_, ?_, fun t ops => by rw [runOps_fixed]⟩
  · by_cases h : v.take 6 = "Digest"
    · simp [h]
    · simp [h]
  · by_cases h : v.take 6 = "Digest" <;> simp [h]

/-- Claim C7 witness: a probe answering `WWW-Authenticate: Digest
realm="x"` resolves to Digest authentication and keeps it across any
sequence of calls. -/
theorem C7_auth_resolved_once_witness :
    ∃ p, SmartPlug.init "172.16.100.75" "admin" "1234"
          [("WWW-Authenticate", "Digest realm=\"x\"")] = Except.ok p ∧
        (p.auth = AuthMode.digest "admin" "1234" ↔ ("Digest realm=\"x\"").take 6 = "Digest") ∧
        (p.auth = AuthMode.digest "admin" "1234" ∨ p.auth = AuthMode.basic "admin" "1234") ∧
        ∀ (t : Transport) (ops : List Op), (runOps t p ops).auth = p.auth :=
  C7_auth_resolved_once "172.16.100.75" "admin" "1234"
    [("WWW-Authenticate", "Digest realm=\"x\"")] "Digest realm=\"x\"" rfl

/-- Claim C8: a probe response with no `WWW-Authenticate` header at all
makes construction fail with the unhandled `KeyError` from indexing the
header dictionary, not fall back to Basic authentication. -/
theorem C8_missing_header_keyerror :
    ∀ (host user pw : String) (hs : List (String × String)),
      headerLookup hs "WWW-Authenticate" = none →
      SmartPlug.init host user pw hs = Except.error (PyErr.keyError "WWW-Authenticate") := by
  intro host user pw hs h
  rw [SmartPlug.init, h]

/-- Claim C8 witness: headers carrying only `Server` lack
`WWW-Authenticate`, and construction fails with `KeyError`. -/
theorem C8_missing_header_keyerror_witness :
    SmartPlug.init "172.16.100.75" "admin" "1234" [("Server", "edimax")] =
      Except.error (PyErr.keyError "WWW-Authenticate") :=
  C8_missing_header_keyerror "172.16.100.75" "admin" "1234" [("Server", "edimax")] rfl

end Edimax
